import Mathlib

/-!
Verification of the sensor-gate data-path logic: a shallow embedding of the
circuit breaker, retry policy, mock transport buffer, wire-schema
normalization, history query parameter validation, Flux query builder and
the aggregation/correlation folds, together with the properties the design
document states about them.

Machine integers and wall-clock instants are modelled as `Int`, Python floats
and Decimals as `Rat` (only coercions and comparisons occur, no rounding
arithmetic), Python exceptions as `Except`/`Option` results.
-/

namespace SensorGate

/-! ### Circuit breaker (src/app/services/pubsub.py, class CircuitBreaker)

The wrapped operation's outcome is passed in as a `Bool` (`true` = the call
returns normally, `false` = it raises); the breaker consults it only when the
operation is actually invoked, and a rejected call is reported by the
distinguished `CallResult.rejected` (the `raise Exception("Circuit breaker is
OPEN")` path, on which the wrapped operation is never invoked). -/

inductive CircuitBreakerState where
  | CLOSED
  | OPEN
  | HALF_OPEN
deriving DecidableEq, Repr

structure CircuitBreaker where
  failure_threshold : Nat
  recovery_timeout : Int
  failure_count : Nat
  last_failure_time : Option Int
  state : CircuitBreakerState
deriving DecidableEq, Repr

/-- `CircuitBreaker.__init__`: counters zeroed, no failure recorded, CLOSED. -/
def mkCircuitBreaker (failure_threshold : Nat) (recovery_timeout : Int) : CircuitBreaker :=
  { failure_threshold := failure_threshold
    recovery_timeout := recovery_timeout
    failure_count := 0
    last_failure_time := none
    state := CircuitBreakerState.CLOSED }

/-- `CircuitBreaker._should_attempt_reset`: last failure recorded and
`time.time() - last_failure_time >= recovery_timeout`. -/
def CircuitBreaker.shouldAttemptReset (cb : CircuitBreaker) (now : Int) : Bool :=
  match cb.last_failure_time with
  | none => false
  | some t => decide (now - t ≥ cb.recovery_timeout)

/-- `CircuitBreaker._on_success`: reset the failure count and close. -/
def CircuitBreaker.onSuccess (cb : CircuitBreaker) : CircuitBreaker :=
  { cb with failure_count := 0, state := CircuitBreakerState.CLOSED }

/-- `CircuitBreaker._on_failure`: bump the failure count, stamp the failure
time, and open once the count reaches the threshold. -/
def CircuitBreaker.onFailure (cb : CircuitBreaker) (now : Int) : CircuitBreaker :=
  let cb' := { cb with
    failure_count := cb.failure_count + 1
    last_failure_time := some now }
  if cb'.failure_count ≥ cb'.failure_threshold then
    { cb' with state := CircuitBreakerState.OPEN }
  else cb'

inductive CallResult where
  | rejected
  | succeeded
  | failed
deriving DecidableEq, Repr

/-- `CircuitBreaker.call`: while OPEN, either move to HALF_OPEN (reset window
elapsed) and attempt the operation, or reject without invoking it; otherwise
attempt the operation and record its outcome. -/
def CircuitBreaker.call (cb : CircuitBreaker) (now : Int) (funcSucceeds : Bool) :
    CircuitBreaker × CallResult :=
  if cb.state = CircuitBreakerState.OPEN then
    if cb.shouldAttemptReset now then
      let cb' := { cb with state := CircuitBreakerState.HALF_OPEN }
      if funcSucceeds then (cb'.onSuccess, CallResult.succeeded)
      else (cb'.onFailure now, CallResult.failed)
    else (cb, CallResult.rejected)
  else
    if funcSucceeds then (cb.onSuccess, CallResult.succeeded)
    else (cb.onFailure now, CallResult.failed)

/-- A sequence of calls whose wrapped operation always fails, made at the
given times. -/
def applyFailures (cb : CircuitBreaker) (ts : List Int) : CircuitBreaker :=
  ts.foldl (fun c t => (c.call t false).1) cb

/-- Breaker states reachable from a freshly constructed breaker through
`CircuitBreaker.call` steps. -/
inductive CircuitBreaker.Reachable (threshold : Nat) (timeout : Int) : CircuitBreaker → Prop where
  | init : CircuitBreaker.Reachable threshold timeout (mkCircuitBreaker threshold timeout)
  | step (cb : CircuitBreaker) (now : Int) (b : Bool) :
      CircuitBreaker.Reachable threshold timeout cb →
      CircuitBreaker.Reachable threshold timeout (cb.call now b).1

/-- Invariant of reachable breaker states: away from CLOSED the failure count
has reached the threshold. -/
theorem reachable_not_closed_count {N : Nat} {rt : Int} {cb : CircuitBreaker}
    (h : CircuitBreaker.Reachable N rt cb) :
    cb.state ≠ CircuitBreakerState.CLOSED → cb.failure_count ≥ cb.failure_threshold := by
  induction h with
  | init => intro hc; simp [mkCircuitBreaker] at hc
  | step cb now b ih ihc =>
    intro hc
    by_cases hop : cb.state = CircuitBreakerState.OPEN
    · by_cases hres : cb.shouldAttemptReset now = true
      · have hcnt : cb.failure_count ≥ cb.failure_threshold := ihc (by simp [hop])
        cases b with
        | false =>
          have hge : cb.failure_count + 1 ≥ cb.failure_threshold := by omega
          simp only [CircuitBreaker.call, hop, hres, if_true, if_pos rfl,
            Bool.false_eq_true, if_false, CircuitBreaker.onFailure] at hc ⊢
          simp only [if_pos hge] at hc ⊢
          omega
        | true => simp [CircuitBreaker.call, hop, hres, CircuitBreaker.onSuccess] at hc
      · have h2 : (cb.call now b).1 = cb := by
          simp [CircuitBreaker.call, hop, hres]
        rw [h2] at hc ⊢
        exact ihc hc
    · cases b with
      | false =>
        by_cases hthr : cb.failure_count + 1 ≥ cb.failure_threshold
        · simp only [CircuitBreaker.call, hop, if_neg, Bool.false_eq_true, if_false,
            CircuitBreaker.onFailure] at hc ⊢
          simp only [if_pos hthr] at hc ⊢
          omega
        · simp only [CircuitBreaker.call, hop, if_neg, Bool.false_eq_true, if_false,
            CircuitBreaker.onFailure] at hc ⊢
          simp only [if_neg hthr] at hc ⊢
          exact absurd (Nat.le_succ_of_le (ihc hc)) (by omega)
      | true => simp [CircuitBreaker.call, hop, CircuitBreaker.onSuccess] at hc

/-- Running consecutive failing calls that stay strictly below the threshold
keeps the breaker CLOSED, counting each failure and stamping the latest
failure time. -/
theorem applyFailures_run_closed :
    ∀ (ts : List Int) (cb : CircuitBreaker),
      cb.state = CircuitBreakerState.CLOSED →
      cb.failure_count + ts.length < cb.failure_threshold →
      applyFailures cb ts =
        { cb with
          failure_count := cb.failure_count + ts.length
          last_failure_time :=
            match ts.getLast? with
            | some t => some t
            | none => cb.last_failure_time }
  | [], cb, hst, _ => by simp [applyFailures]
  | t :: ts, cb, hst, hcnt => by
    have hop : ¬ cb.state = CircuitBreakerState.OPEN := by simp [hst]
    have hlt : ¬ (cb.failure_count + 1 ≥ cb.failure_threshold) := by
      simp only [List.length_cons] at hcnt; omega
    have hstep : (cb.call t false).1 =
        { cb with
          failure_count := cb.failure_count + 1
          last_failure_time := some t } := by
      simp [CircuitBreaker.call, hop, CircuitBreaker.onFailure, hlt]
    have happ : applyFailures cb (t :: ts) =
        applyFailures
          { cb with
            failure_count := cb.failure_count + 1
            last_failure_time := some t } ts := by
      simp [applyFailures, hstep]
    rw [happ, applyFailures_run_closed ts _ (by simp [hst])
      (by simp only [List.length_cons] at hcnt; simp; omega)]
    obtain ⟨ft, rt, fc, lft, st⟩ := cb
    cases ts with
    | nil => simp
    | cons t' ts' =>
      simp only [List.getLast?_cons_cons, List.length_cons]
      cases h : (t' :: ts').getLast? with
      | none => simp at h
      | some u => simp; omega

/-- C1: with failure threshold `N ≥ 1`, a fresh breaker stays CLOSED through
the first `N - 1` consecutive failing calls, becomes OPEN exactly on the
`N`-th, and while OPEN, any call made before `recovery_timeout` has elapsed
since the last failure is rejected with the breaker state untouched and the
wrapped operation not invoked (the result is `rejected` regardless of what
the operation would have done). -/
theorem circuit_breaker_opens_on_nth_failure (N : Nat) (rt : Int) (ts : List Int) (tN : Int)
    (hN : 0 < N) (hlen : ts.length = N) (hlast : ts.getLast? = some tN) :
    (∀ k < N, (applyFailures (mkCircuitBreaker N rt) (ts.take k)).state =
      CircuitBreakerState.CLOSED) ∧
    (applyFailures (mkCircuitBreaker N rt) ts).state = CircuitBreakerState.OPEN ∧
    (applyFailures (mkCircuitBreaker N rt) ts).last_failure_time = some tN ∧
    (∀ (now : Int) (b : Bool), now - tN < rt →
      (applyFailures (mkCircuitBreaker N rt) ts).call now b =
        (applyFailures (mkCircuitBreaker N rt) ts, CallResult.rejected)) := by
  have hne : ts ≠ [] := by
    intro h; rw [h] at hlen; simp at hlen; omega
  have hsplit : ts.dropLast ++ [tN] = ts := List.dropLast_append_getLast? tN hlast
  have hdrop_len : ts.dropLast.length = N - 1 := by
    rw [List.length_dropLast, hlen]
  have hkclosed : ∀ k < N, (applyFailures (mkCircuitBreaker N rt) (ts.take k)).state =
      CircuitBreakerState.CLOSED := by
    intro k hk
    rw [applyFailures_run_closed (ts.take k) (mkCircuitBreaker N rt) rfl
      (by simp [mkCircuitBreaker, List.length_take, hlen]; omega)]
    simp [mkCircuitBreaker]
  have hinter := applyFailures_run_closed ts.dropLast (mkCircuitBreaker N rt) rfl
    (by simp [mkCircuitBreaker, hdrop_len]; omega)
  have hfinal : applyFailures (mkCircuitBreaker N rt) ts =
      ((applyFailures (mkCircuitBreaker N rt) ts.dropLast).call tN false).1 := by
    conv_lhs => rw [← hsplit]
    simp [applyFailures, List.foldl_append]
  have hmid_state : (applyFailures (mkCircuitBreaker N rt) ts.dropLast).state =
      CircuitBreakerState.CLOSED := by rw [hinter]; simp [mkCircuitBreaker]
  have hmid_count : (applyFailures (mkCircuitBreaker N rt) ts.dropLast).failure_count = N - 1 := by
    rw [hinter]; simp [mkCircuitBreaker, hdrop_len]
  have hmid_thr : (applyFailures (mkCircuitBreaker N rt) ts.dropLast).failure_threshold = N := by
    rw [hinter]; simp [mkCircuitBreaker]
  have hmid_rt : (applyFailures (mkCircuitBreaker N rt) ts.dropLast).recovery_timeout = rt := by
    rw [hinter]; simp [mkCircuitBreaker]
  set mid := applyFailures (mkCircuitBreaker N rt) ts.dropLast with hmid
  have hop : ¬ mid.state = CircuitBreakerState.OPEN := by simp [hmid_state]
  have hge : mid.failure_count + 1 ≥ mid.failure_threshold := by
    rw [hmid_count, hmid_thr]; omega
  have hcall : (mid.call tN false).1 =
      { mid with
        failure_count := mid.failure_count + 1
        last_failure_time := some tN
        state := CircuitBreakerState.OPEN } := by
    simp [CircuitBreaker.call, hop, CircuitBreaker.onFailure, hge]
  rw [hfinal, hcall]
  refine ⟨hkclosed, rfl, rfl, ?_⟩
  intro now b hnow
  have hreset : ({ mid with
      failure_count := mid.failure_count + 1
      last_failure_time := some tN
      state := CircuitBreakerState.OPEN } : CircuitBreaker).shouldAttemptReset now = false := by
    simp [CircuitBreaker.shouldAttemptReset, hmid_rt]; omega
  simp [CircuitBreaker.call, hreset]

/-- C1 witness: threshold 3, timeout 60; failures at times 0, 1, 2. -/
theorem circuit_breaker_opens_on_nth_failure_witness :
    (∀ k < 3, (applyFailures (mkCircuitBreaker 3 60) ([0, 1, 2].take k)).state =
      CircuitBreakerState.CLOSED) ∧
    (applyFailures (mkCircuitBreaker 3 60) [0, 1, 2]).state = CircuitBreakerState.OPEN ∧
    (applyFailures (mkCircuitBreaker 3 60) [0, 1, 2]).last_failure_time = some 2 ∧
    (∀ (now : Int) (b : Bool), now - 2 < 60 →
      (applyFailures (mkCircuitBreaker 3 60) [0, 1, 2]).call now b =
        (applyFailures (mkCircuitBreaker 3 60) [0, 1, 2], CallResult.rejected)) :=
  circuit_breaker_opens_on_nth_failure 3 60 [0, 1, 2] 2 (by decide) (by decide) (by decide)

/-- C10: while the breaker is OPEN and strictly less than `recovery_timeout`
has elapsed since the recorded last failure, a call is rejected and the
breaker is returned entirely unchanged (failure count, failure time and
state), whatever the wrapped operation would have done. -/
theorem circuit_breaker_rejection_frame (cb : CircuitBreaker) (now t : Int) (b : Bool)
    (hopen : cb.state = CircuitBreakerState.OPEN)
    (hlft : cb.last_failure_time = some t)
    (helapsed : now - t < cb.recovery_timeout) :
    cb.call now b = (cb, CallResult.rejected) := by
  have hreset : cb.shouldAttemptReset now = false := by
    simp [CircuitBreaker.shouldAttemptReset, hlft]; omega
  simp [CircuitBreaker.call, hopen, hreset]

/-- C10 witness: an OPEN breaker (threshold 5, timeout 60, last failure at
100) rejects a call at time 130 unchanged. -/
theorem circuit_breaker_rejection_frame_witness :
    CircuitBreaker.call
      { failure_threshold := 5
        recovery_timeout := 60
        failure_count := 5
        last_failure_time := some 100
        state := CircuitBreakerState.OPEN } 130 true =
      ({ failure_threshold := 5
         recovery_timeout := 60
         failure_count := 5
         last_failure_time := some 100
         state := CircuitBreakerState.OPEN },
        CallResult.rejected) :=
  circuit_breaker_rejection_frame _ 130 100 true rfl rfl (by decide)

/-- C2: a reachable breaker sitting OPEN, probed by a call after the recovery
window has elapsed (the OPEN to HALF_OPEN transition), closes with the failure
count reset to 0 if that attempt succeeds, and returns to OPEN with the
failure count incremented and the failure time restamped if it fails. -/
theorem circuit_breaker_half_open_resolution (N : Nat) (rt : Int) (cb : CircuitBreaker)
    (hreach : CircuitBreaker.Reachable N rt cb)
    (hopen : cb.state = CircuitBreakerState.OPEN) (now : Int)
    (hreset : cb.shouldAttemptReset now = true) :
    cb.call now true =
      ({ cb with state := CircuitBreakerState.CLOSED, failure_count := 0 },
        CallResult.succeeded) ∧
    cb.call now false =
      ({ cb with
          state := CircuitBreakerState.OPEN
          failure_count := cb.failure_count + 1
          last_failure_time := some now }, CallResult.failed) := by
  have hcnt : cb.failure_count ≥ cb.failure_threshold :=
    reachable_not_closed_count hreach (by simp [hopen])
  have hge : cb.failure_count + 1 ≥ cb.failure_threshold := by omega
  constructor
  · simp [CircuitBreaker.call, hopen, hreset, CircuitBreaker.onSuccess]
  · simp [CircuitBreaker.call, hopen, hreset, CircuitBreaker.onFailure, hge]

/-- C2 witness: threshold 1, timeout 5; one failure at time 0 opens the
breaker, and the probing call at time 5 resolves both ways as stated. -/
theorem circuit_breaker_half_open_resolution_witness :
    (((mkCircuitBreaker 1 5).call 0 false).1.call 5 true =
      ({ ((mkCircuitBreaker 1 5).call 0 false).1 with
        state := CircuitBreakerState.CLOSED, failure_count := 0 },
        CallResult.succeeded)) ∧
    (((mkCircuitBreaker 1 5).call 0 false).1.call 5 false =
      ({ ((mkCircuitBreaker 1 5).call 0 false).1 with
          state := CircuitBreakerState.OPEN
          failure_count := ((mkCircuitBreaker 1 5).call 0 false).1.failure_count + 1
          last_failure_time := some 5 }, CallResult.failed)) :=
  circuit_breaker_half_open_resolution 1 5 _
    (CircuitBreaker.Reachable.step _ 0 false CircuitBreaker.Reachable.init)
    (by decide) 5 (by decide)

/-! ### Publish retry policy (src/app/services/pubsub.py, `@retry` on
PubSubService._publish_message)

The decorator declares `stop=stop_after_attempt(3)` and
`retry=retry_if_exception_type((ServiceUnavailable, DeadlineExceeded,
InternalServerError))`.  Each underlying publish attempt is modelled by its
outcome `attempt i : Except GcpError String` (message id on success); the
wrapped call runs attempts in order, retrying only on the declared error
kinds and stopping after three attempts, after which the failure surfacing
to the caller carries the last attempt's error.  The result is paired with
the number of attempts actually made. -/

inductive GcpError where
  | serviceUnavailable
  | deadlineExceeded
  | internalServerError
  | permissionDenied
  | notFound
  | invalidArgument
deriving DecidableEq, Repr

/-- The `retry_if_exception_type` allow-list: exactly the three declared
transient kinds. -/
def isRetriedErrorKind : GcpError → Bool
  | GcpError.serviceUnavailable => true
  | GcpError.deadlineExceeded => true
  | GcpError.internalServerError => true
  | _ => false

/-- `stop_after_attempt(3)`. -/
def publishMaxAttempts : Nat := 3

/-- One retry-wrapped execution: make attempt `i`; on success return its
message id, on a non-retried error kind propagate it at once, on a retried
kind re-attempt while retries remain (`fuel` = attempts still allowed after
this one). -/
def retryAttemptLoop (attempt : Nat → Except GcpError String) :
    Nat → Nat → Except GcpError String × Nat
  | i, fuel =>
    match attempt i, fuel with
    | Except.ok m, _ => (Except.ok m, i + 1)
    | Except.error e, 0 => (Except.error e, i + 1)
    | Except.error e, fuel' + 1 =>
      if isRetriedErrorKind e then retryAttemptLoop attempt (i + 1) fuel'
      else (Except.error e, i + 1)

/-- `PubSubService._publish_message` as seen by its caller: the retry wrapper
around the attempt sequence, limited to `publishMaxAttempts` attempts. -/
def publish_message (attempt : Nat → Except GcpError String) :
    Except GcpError String × Nat :=
  retryAttemptLoop attempt 0 (publishMaxAttempts - 1)

/-- C3: (a) when every attempt fails with a declared-transient error kind,
the underlying publish is attempted exactly 3 times and the failure
surfacing to the caller carries the last attempt's error; (b) when an
attempt fails with an error kind outside the allow-list (after any number of
transient failures before it), that error propagates at once and no further
attempt is made. -/
theorem publish_retry_policy (attempt : Nat → Except GcpError String) :
    ((∀ i < publishMaxAttempts,
        ∃ e, attempt i = Except.error e ∧ isRetriedErrorKind e = true) →
      (publish_message attempt).2 = publishMaxAttempts ∧
      ∃ e, attempt (publishMaxAttempts - 1) = Except.error e ∧
        (publish_message attempt).1 = Except.error e) ∧
    (∀ k, k < publishMaxAttempts →
      (∀ i < k, ∃ e', attempt i = Except.error e' ∧ isRetriedErrorKind e' = true) →
      ∀ e, attempt k = Except.error e → isRetriedErrorKind e = false →
      publish_message attempt = (Except.error e, k + 1)) := by
  constructor
  · intro h
    obtain ⟨e0, h0, r0⟩ := h 0 (by norm_num [publishMaxAttempts])
    obtain ⟨e1, h1, r1⟩ := h 1 (by norm_num [publishMaxAttempts])
    obtain ⟨e2, h2, r2⟩ := h 2 (by norm_num [publishMaxAttempts])
    refine ⟨?_, e2, h2, ?_⟩ <;>
      simp [publish_message, publishMaxAttempts, retryAttemptLoop, h0, r0, h1, r1, h2, r2]
  · intro k hk hpre e he hne
    have hk3 : k < 3 := by simpa [publishMaxAttempts] using hk
    interval_cases k
    · simp [publish_message, publishMaxAttempts, retryAttemptLoop, he, hne]
    · obtain ⟨e0, h0, r0⟩ := hpre 0 (by norm_num)
      simp [publish_message, publishMaxAttempts, retryAttemptLoop, h0, r0, he, hne]
    · obtain ⟨e0, h0, r0⟩ := hpre 0 (by norm_num)
      obtain ⟨e1, h1, r1⟩ := hpre 1 (by norm_num)
      simp [publish_message, publishMaxAttempts, retryAttemptLoop, h0, r0, h1, r1, he, hne]

/-- Attempt sequence that always fails with ServiceUnavailable. -/
def attemptAlwaysUnavailable : Nat → Except GcpError String :=
  fun _ => Except.error GcpError.serviceUnavailable

/-- Attempt sequence whose first attempt fails with PermissionDenied. -/
def attemptPermissionDenied : Nat → Except GcpError String :=
  fun _ => Except.error GcpError.permissionDenied

/-- C3 witness: all-transient failures give 3 attempts and the last transient
error; a first-attempt non-transient error propagates after 1 attempt. -/
theorem publish_retry_policy_witness :
    ((publish_message attemptAlwaysUnavailable).2 = publishMaxAttempts ∧
      (publish_message attemptAlwaysUnavailable).1 =
        Except.error GcpError.serviceUnavailable) ∧
    publish_message attemptPermissionDenied =
      (Except.error GcpError.permissionDenied, 1) := by
  constructor
  · have h := (publish_retry_policy attemptAlwaysUnavailable).1
      (fun i _ => ⟨GcpError.serviceUnavailable, rfl, rfl⟩)
    obtain ⟨hn, e, he, hres⟩ := h
    refine ⟨hn, ?_⟩
    have : e = GcpError.serviceUnavailable := by
      have := he.symm
      simpa [attemptAlwaysUnavailable] using this
    rw [hres, this]
  · exact (publish_retry_policy attemptPermissionDenied).2 0 (by norm_num [publishMaxAttempts])
      (fun i hi => absurd hi (by omega)) GcpError.permissionDenied rfl rfl

/-! ### Wire-schema normalization (src/app/services/pubsub.py
`PubSubService.publish_sensor_data` / `_transform_data_for_avro_schema`, and
src/app/services/mock_pubsub.py `MockPubSubService.publish_sensor_data`)

The dictionary built by the HTTP layer (`sensors.py`) has an `int` device_id,
string sensor_type, ISO-timestamp string, and `float`-or-`Decimal` numeric
fields (`SensorData.value/latitude/longitude : Union[float, Decimal]`).
Python floats and Decimals are both carried as `Rat` here, tagged by which
Python type holds them — only the tag matters: `json.dumps(..., default=str)`
serializes a float as a JSON number and a Decimal through `str` as a JSON
string.  On the real path `publish_sensor_data` applies
`_transform_data_for_avro_schema` before serializing; on the mock path it
returns `self._mock_service.publish_sensor_data(sensor_type, data)`, which
serializes `data` as-is. -/

inductive PyNum where
  | pyFloat (q : ℚ)
  | pyDecimal (q : ℚ)
deriving DecidableEq, Repr

/-- Python `float(x)` on a float or Decimal. -/
def pyFloatCoerce : PyNum → PyNum
  | PyNum.pyFloat q => PyNum.pyFloat q
  | PyNum.pyDecimal q => PyNum.pyFloat q

/-- Whether the value is held as a Python float (serialized as a JSON
number). -/
def PyNum.isFloat : PyNum → Bool
  | PyNum.pyFloat _ => true
  | PyNum.pyDecimal _ => false

structure SensorDict where
  device_id : Int
  sensor_type : String
  value : PyNum
  latitude : PyNum
  longitude : PyNum
  timestamp : String
deriving DecidableEq, Repr

/-- `PubSubService._transform_data_for_avro_schema`: `int()` on the (already
integral) device_id, `float()` on value/latitude/longitude, and the timestamp
kept as-is when it is already a string (the `isinstance(timestamp_value,
str)` branch — the pipeline always hands over `timestamp.isoformat()`). -/
def transform_data_for_avro_schema (d : SensorDict) : SensorDict :=
  { device_id := d.device_id
    sensor_type := d.sensor_type
    value := pyFloatCoerce d.value
    latitude := pyFloatCoerce d.latitude
    longitude := pyFloatCoerce d.longitude
    timestamp := d.timestamp }

/-- Real path of `PubSubService.publish_sensor_data`: the dictionary
serialized and handed to `circuit_breaker.call(_publish_message, ...)`. -/
def realPublishPayload (d : SensorDict) : SensorDict :=
  transform_data_for_avro_schema d

/-- Mock path: `publish_sensor_data` forwards to
`MockPubSubService.publish_sensor_data`, which serializes the incoming
dictionary unchanged (`json.dumps(data, default=str)`). -/
def mockPublishPayload (d : SensorDict) : SensorDict := d

/-- The wire-schema shape C4 asserts for the numeric fields: value, latitude
and longitude held as Python floats (hence JSON numbers on the wire). -/
def wireNumericNormalized (d : SensorDict) : Bool :=
  d.value.isFloat && d.latitude.isFloat && d.longitude.isFloat

/-- A reading whose value is carried as a `Decimal` — admitted by
`SensorData.value : Union[float, Decimal]` — as handed over by the HTTP
layer. -/
def decimalReading : SensorDict :=
  { device_id := 12345
    sensor_type := "temperature"
    value := PyNum.pyDecimal ((47 : ℚ) / 2)
    latitude := PyNum.pyFloat ((377 : ℚ) / 10)
    longitude := PyNum.pyFloat (-((1224 : ℚ) / 10))
    timestamp := "2024-01-15T12:00:00+00:00" }

/-- C4 counterexample: on the mock path the payload handed to the transport's
publish is NOT normalized to the wire schema — a Decimal-valued reading keeps
its Decimal (serialized as a JSON string, not a float), and the mock payload
differs from the normalized one. -/
theorem mock_payload_not_normalized_cex :
    wireNumericNormalized (mockPublishPayload decimalReading) = false ∧
    mockPublishPayload decimalReading ≠ transform_data_for_avro_schema decimalReading := by
  constructor
  · rfl
  · intro h
    have hv : (mockPublishPayload decimalReading).value =
        (transform_data_for_avro_schema decimalReading).value := by rw [h]
    simp [mockPublishPayload, transform_data_for_avro_schema, decimalReading,
      pyFloatCoerce] at hv

/-- C4 amended: only the real transport path normalizes the payload — there
value/latitude/longitude are coerced to floats, device_id is the (integer)
device_id, and the ISO timestamp string is kept verbatim; the mock path
hands the transport the reading's dictionary unchanged, with no coercion
applied. -/
theorem wire_schema_normalization_paths (d : SensorDict) :
    wireNumericNormalized (realPublishPayload d) = true ∧
    (realPublishPayload d).timestamp = d.timestamp ∧
    (realPublishPayload d).device_id = d.device_id ∧
    (realPublishPayload d).sensor_type = d.sensor_type ∧
    mockPublishPayload d = d := by
  refine ⟨?_, rfl, rfl, rfl, rfl⟩
  cases hv : d.value <;> cases hla : d.latitude <;> cases hlo : d.longitude <;>
    simp [realPublishPayload, transform_data_for_avro_schema, wireNumericNormalized,
      pyFloatCoerce, PyNum.isFloat, hv, hla, hlo]

/-! ### Mock transport buffer (src/app/services/mock_pubsub.py,
MockPublisherClient)

`published_messages` is the per-topic dictionary of stored messages (a
`defaultdict(list)`, modelled as a total function defaulting to `[]`),
`message_counter` the monotone id counter, and `max_messages_per_topic` the
cap set to 1000 in `__init__`.  `publish` extracts the topic name from the
path, generates `mock-msg-{int(time.time())}-{counter}`, pops the oldest
entry (`pop(0)`) when the buffer has reached the cap, and appends the new
message at the end. -/

structure MockPubSubMessage where
  message_id : String
  topic : String
  data : String
deriving DecidableEq, Repr

structure MockPublisherClient where
  published_messages : String → List MockPubSubMessage
  message_counter : Nat
  max_messages_per_topic : Nat

/-- `MockPublisherClient.__init__`: no messages, counter 0, cap 1000. -/
def mkMockPublisherClient : MockPublisherClient :=
  { published_messages := fun _ => []
    message_counter := 0
    max_messages_per_topic := 1000 }

/-- Python `str.split('/')` on the character list: segments between slashes,
empty segments preserved. -/
def splitOnSlash : List Char → List (List Char)
  | [] => [[]]
  | c :: cs =>
    let rest := splitOnSlash cs
    if c = '/' then [] :: rest
    else
      match rest with
      | [] => [[c]]
      | seg :: segs => (c :: seg) :: segs

/-- `topic_path.split('/')[-1]`. -/
def topicNameOfPath (topicPath : String) : String :=
  String.mk ((splitOnSlash topicPath.data).getLastD topicPath.data)

/-- `MockPublisherClient.publish`.  The wall clock that enters the message id
is passed in as `now`. -/
def MockPublisherClient.publish (c : MockPublisherClient) (now : Int)
    (topicPath : String) (data : String) : MockPublisherClient × String :=
  let topic_name := topicNameOfPath topicPath
  let counter := c.message_counter + 1
  let message_id := "mock-msg-" ++ toString now ++ "-" ++ toString counter
  let message : MockPubSubMessage :=
    { message_id := message_id, topic := topic_name, data := data }
  let buf := c.published_messages topic_name
  let buf' := if buf.length ≥ c.max_messages_per_topic then buf.drop 1 else buf
  ({ published_messages :=
      fun t => if t = topic_name then buf' ++ [message] else c.published_messages t
     message_counter := counter
     max_messages_per_topic := c.max_messages_per_topic }, message_id)

/-- A sequence of publishes (time, topic path, payload), threaded through the
client state. -/
def applyPublishes (c : MockPublisherClient)
    (ps : List (Int × String × String)) : MockPublisherClient :=
  ps.foldl (fun c p => (c.publish p.1 p.2.1 p.2.2).1) c

theorem publish_step_cap (c : MockPublisherClient) (now : Int) (tp d : String)
    (hcap : 1 ≤ c.max_messages_per_topic)
    (h : ∀ t, (c.published_messages t).length ≤ c.max_messages_per_topic) :
    (∀ t, ((c.publish now tp d).1.published_messages t).length ≤
      (c.publish now tp d).1.max_messages_per_topic) ∧
    (c.publish now tp d).1.max_messages_per_topic = c.max_messages_per_topic := by
  refine ⟨?_, rfl⟩
  intro t
  by_cases ht : t = topicNameOfPath tp
  · by_cases hfull :
      (c.published_messages (topicNameOfPath tp)).length ≥ c.max_messages_per_topic
    · have hlen := h (topicNameOfPath tp)
      simp [MockPublisherClient.publish, ht, hfull]
      omega
    · simp [MockPublisherClient.publish, ht, hfull]
      have := h (topicNameOfPath tp)
      omega
  · simp [MockPublisherClient.publish, ht]
    exact h t

theorem applyPublishes_cap :
    ∀ (ps : List (Int × String × String)) (c : MockPublisherClient),
      1 ≤ c.max_messages_per_topic →
      (∀ t, (c.published_messages t).length ≤ c.max_messages_per_topic) →
      (∀ t, ((applyPublishes c ps).published_messages t).length ≤
        (applyPublishes c ps).max_messages_per_topic) ∧
      (applyPublishes c ps).max_messages_per_topic = c.max_messages_per_topic
  | [], c, hcap, h => ⟨h, rfl⟩
  | p :: ps, c, hcap, h => by
    have hstep := publish_step_cap c p.1 p.2.1 p.2.2 hcap h
    have happ : applyPublishes c (p :: ps) =
        applyPublishes (c.publish p.1 p.2.1 p.2.2).1 ps := rfl
    rw [happ]
    have hrec := applyPublishes_cap ps (c.publish p.1 p.2.1 p.2.2).1
      (by rw [hstep.2]; exact hcap) hstep.1
    exact ⟨hrec.1, by rw [hrec.2, hstep.2]⟩

/-- C5: starting from a fresh mock client, no per-topic buffer ever exceeds
1000 messages; and a publish hitting a buffer that already holds exactly 1000
messages removes exactly the oldest message of that topic (the head) and then
appends the new message at the end. -/
theorem mock_buffer_cap_and_evict :
    (∀ (ps : List (Int × String × String)) (t : String),
      ((applyPublishes mkMockPublisherClient ps).published_messages t).length ≤ 1000) ∧
    (∀ (c : MockPublisherClient) (now : Int) (tp d : String),
      c.max_messages_per_topic = 1000 →
      (c.published_messages (topicNameOfPath tp)).length = 1000 →
      (c.publish now tp d).1.published_messages (topicNameOfPath tp) =
        (c.published_messages (topicNameOfPath tp)).drop 1 ++
          [{ message_id :=
              "mock-msg-" ++ toString now ++ "-" ++ toString (c.message_counter + 1)
             topic := topicNameOfPath tp
             data := d }]) := by
  constructor
  · intro ps t
    have h := applyPublishes_cap ps mkMockPublisherClient
      (by simp [mkMockPublisherClient]) (by simp [mkMockPublisherClient])
    have := h.1 t
    rw [h.2] at this
    simpa [mkMockPublisherClient] using this
  · intro c now tp d hcap hlen
    have hfull : (c.published_messages (topicNameOfPath tp)).length ≥
        c.max_messages_per_topic := by omega
    simp [MockPublisherClient.publish, hfull]

/-- A mock client whose "sensor-temperature" buffer is at the 1000-message
cap. -/
def fullMockClient : MockPublisherClient :=
  { published_messages := fun t =>
      if t = "sensor-temperature" then
        List.replicate 1000
          { message_id := "mock-msg-0-0", topic := "sensor-temperature", data := "old" }
      else []
    message_counter := 7
    max_messages_per_topic := 1000 }

/-- C5 witness: the cap bound on a concrete publish sequence, and the
evict-then-append behaviour on a concrete full buffer. -/
theorem mock_buffer_cap_and_evict_witness :
    ((applyPublishes mkMockPublisherClient
      [(0, "projects/p/topics/a", "x")]).published_messages "a").length ≤ 1000 ∧
    (fullMockClient.publish 5 "projects/p/topics/sensor-temperature" "d").1.published_messages
        "sensor-temperature" =
      (fullMockClient.published_messages "sensor-temperature").drop 1 ++
        [{ message_id :=
            "mock-msg-" ++ toString (5 : Int) ++ "-" ++
              toString (fullMockClient.message_counter + 1)
           topic := "sensor-temperature"
           data := "d" }] := by
  constructor
  · exact mock_buffer_cap_and_evict.1 [(0, "projects/p/topics/a", "x")] "a"
  · have htn : topicNameOfPath "projects/p/topics/sensor-temperature" =
        "sensor-temperature" := by decide
    have hbuf : fullMockClient.published_messages "sensor-temperature" =
        List.replicate 1000
          { message_id := "mock-msg-0-0", topic := "sensor-temperature", data := "old" } :=
      rfl
    have h := mock_buffer_cap_and_evict.2 fullMockClient 5
      "projects/p/topics/sensor-temperature" "d" rfl
      (by rw [htn, hbuf]; exact List.length_replicate 1000 _)
    rw [htn] at h
    exact h

/-! ### History query parameters (src/app/models/history.py,
HistoryQueryParams)

Instants are integers, latitudes/longitudes rationals.  `mkHistoryQueryParams`
performs exactly the pydantic validation of the model: the per-field `Field`
range constraints (`device_id > 0`, latitude in [-90, 90], longitude in
[-180, 180]) and the three `field_validator`s (`end_time` strictly after
`start_time`; `latitude_max`/`longitude_max` strictly greater than the
matching min when both bounds are present).  A validated
`HistoryQueryParams` value exists only as the `Except.ok` result of this
constructor, mirroring that pydantic validation happens at model
construction. -/

inductive SensorType where
  | temperature
  | humidity
  | ndir
deriving DecidableEq, Repr

/-- The `.value` string of the `SensorType` str-enum. -/
def SensorType.value : SensorType → String
  | SensorType.temperature => "temperature"
  | SensorType.humidity => "humidity"
  | SensorType.ndir => "ndir"

/-- `SensorType(s)` on a raw string: the enum member when the token is
valid, otherwise the ValueError path (also the TypeError path for a missing
value). -/
def parseSensorType : Option String → Option SensorType
  | some "temperature" => some SensorType.temperature
  | some "humidity" => some SensorType.humidity
  | some "ndir" => some SensorType.ndir
  | _ => none

inductive AggregationType where
  | mean
  | min
  | max
  | count
  | sum
  | first
  | last
deriving DecidableEq, Repr

/-- The raw field values handed to the model constructor. -/
structure RawHistoryQuery where
  start_time : Int
  end_time : Int
  sensor_type : Option SensorType
  device_id : Option Int
  latitude_min : Option ℚ
  latitude_max : Option ℚ
  longitude_min : Option ℚ
  longitude_max : Option ℚ
  aggregation : Option AggregationType
deriving DecidableEq, Repr

/-- A successfully validated query parameter set. -/
structure HistoryQueryParams where
  start_time : Int
  end_time : Int
  sensor_type : Option SensorType
  device_id : Option Int
  latitude_min : Option ℚ
  latitude_max : Option ℚ
  longitude_min : Option ℚ
  longitude_max : Option ℚ
  aggregation : AggregationType
deriving DecidableEq, Repr

/-- `Field(gt=0)` on device_id. -/
def deviceIdOk : Option Int → Bool
  | none => true
  | some d => decide (0 < d)

/-- `Field(ge=lo, le=hi)` on an optional coordinate. -/
def coordRangeOk (o : Option ℚ) (lo hi : ℚ) : Bool :=
  match o with
  | none => true
  | some v => decide (lo ≤ v ∧ v ≤ hi)

/-- The `validate_latitude_range`/`validate_longitude_range` validators:
fail exactly when both bounds are present with max ≤ min. -/
def maxGtMinOk (omin omax : Option ℚ) : Bool :=
  match omin, omax with
  | some vmin, some vmax => decide (vmin < vmax)
  | _, _ => true

/-- Constructing `HistoryQueryParams`: pydantic field validation, raising the
first violated constraint as a `ValueError` message.  `aggregation` defaults
to MEAN (`Field(AggregationType.MEAN, ...)`). -/
def mkHistoryQueryParams (r : RawHistoryQuery) : Except String HistoryQueryParams :=
  if ¬ r.start_time < r.end_time then
    Except.error "end_time must be after start_time"
  else if ¬ deviceIdOk r.device_id then
    Except.error "device_id must be greater than 0"
  else if ¬ coordRangeOk r.latitude_min (-90) 90 then
    Except.error "latitude_min out of range"
  else if ¬ coordRangeOk r.latitude_max (-90) 90 then
    Except.error "latitude_max out of range"
  else if ¬ maxGtMinOk r.latitude_min r.latitude_max then
    Except.error "latitude_max must be greater than latitude_min"
  else if ¬ coordRangeOk r.longitude_min (-180) 180 then
    Except.error "longitude_min out of range"
  else if ¬ coordRangeOk r.longitude_max (-180) 180 then
    Except.error "longitude_max out of range"
  else if ¬ maxGtMinOk r.longitude_min r.longitude_max then
    Except.error "longitude_max must be greater than longitude_min"
  else
    Except.ok
      { start_time := r.start_time
        end_time := r.end_time
        sensor_type := r.sensor_type
        device_id := r.device_id
        latitude_min := r.latitude_min
        latitude_max := r.latitude_max
        longitude_min := r.longitude_min
        longitude_max := r.longitude_max
        aggregation := r.aggregation.getD AggregationType.mean }

/-! ### Flux query builder (src/app/services/influxdb.py,
InfluxDBService._build_base_query)

The builder's `query_parts` list is modelled as a list of structured clauses
with one rendering function per clause (the f-strings of the source, with
`isoformat()` and the Python float repr abstracted into rendering
functions); the compiled query is the rendered clauses joined by the
newline-plus-indent separator. -/

inductive FluxClause where
  | fromBucket (bucket : String)
  | range (start stop : Int)
  | measurementFilter
  | sensorTypeFilter (v : SensorType)
  | deviceIdFilter (d : Int)
  | latMinFilter (q : ℚ)
  | latMaxFilter (q : ℚ)
  | lonMinFilter (q : ℚ)
  | lonMaxFilter (q : ℚ)
deriving DecidableEq, Repr

/-- Abstraction of `datetime.isoformat()` for integer instants. -/
def isoRender (t : Int) : String := toString t

/-- Abstraction of the Python float repr interpolated into the query text. -/
def ratRender (q : ℚ) : String := toString q

/-- The f-string each clause renders to. -/
def FluxClause.render : FluxClause → String
  | FluxClause.fromBucket b => "from(bucket: \"" ++ b ++ "\")"
  | FluxClause.range s e =>
      "|> range(start: " ++ isoRender s ++ "Z, stop: " ++ isoRender e ++ "Z)"
  | FluxClause.measurementFilter =>
      "|> filter(fn: (r) => r[\"_measurement\"] == \"sensor_data\")"
  | FluxClause.sensorTypeFilter v =>
      "|> filter(fn: (r) => r[\"sensor_type\"] == \"" ++ v.value ++ "\")"
  | FluxClause.deviceIdFilter d =>
      "|> filter(fn: (r) => r[\"device_id\"] == \"" ++ toString d ++ "\")"
  | FluxClause.latMinFilter q =>
      "|> filter(fn: (r) => r[\"latitude\"] >= " ++ ratRender q ++ ")"
  | FluxClause.latMaxFilter q =>
      "|> filter(fn: (r) => r[\"latitude\"] <= " ++ ratRender q ++ ")"
  | FluxClause.lonMinFilter q =>
      "|> filter(fn: (r) => r[\"longitude\"] >= " ++ ratRender q ++ ")"
  | FluxClause.lonMaxFilter q =>
      "|> filter(fn: (r) => r[\"longitude\"] <= " ++ ratRender q ++ ")"

/-- The `if params.sensor_type:` append (enum members are always truthy). -/
def sensorTypeClauses : Option SensorType → List FluxClause
  | some s => [FluxClause.sensorTypeFilter s]
  | none => []

/-- The `if params.device_id:` append — Python truthiness, so a zero id
would be skipped (validation guarantees ids are positive). -/
def deviceIdClauses : Option Int → List FluxClause
  | some d => if d = 0 then [] else [FluxClause.deviceIdFilter d]
  | none => []

/-- One `if params.x is not None:` append for a coordinate bound. -/
def coordClauses (mk : ℚ → FluxClause) : Option ℚ → List FluxClause
  | some q => [mk q]
  | none => []

/-- `InfluxDBService._build_base_query`: the `query_parts` list in source
order. -/
def build_base_query (bucket : String) (params : HistoryQueryParams) : List FluxClause :=
  [FluxClause.fromBucket bucket,
   FluxClause.range params.start_time params.end_time,
   FluxClause.measurementFilter]
  ++ sensorTypeClauses params.sensor_type
  ++ deviceIdClauses params.device_id
  ++ coordClauses FluxClause.latMinFilter params.latitude_min
  ++ coordClauses FluxClause.latMaxFilter params.latitude_max
  ++ coordClauses FluxClause.lonMinFilter params.longitude_min
  ++ coordClauses FluxClause.lonMaxFilter params.longitude_max

/-- `'\n  '.join(query_parts)`. -/
def build_base_query_text (bucket : String) (params : HistoryQueryParams) : String :=
  String.intercalate "\n  " ((build_base_query bucket params).map FluxClause.render)

/-- The raw-history pipeline up to query compilation: validate the raw
parameters, then compile the base query (the store is only handed the
compiled text afterwards, so an `Except.error` here means no query was
compiled or executed). -/
def historyQueryPipeline (bucket : String) (r : RawHistoryQuery) :
    Except String (List FluxClause) :=
  match mkHistoryQueryParams r with
  | Except.error e => Except.error e
  | Except.ok p => Except.ok (build_base_query bucket p)

theorem mkHistoryQueryParams_ok_constraints (r : RawHistoryQuery) (p : HistoryQueryParams)
    (h : mkHistoryQueryParams r = Except.ok p) :
    r.start_time < r.end_time ∧
    maxGtMinOk r.latitude_min r.latitude_max = true ∧
    maxGtMinOk r.longitude_min r.longitude_max = true := by
  unfold mkHistoryQueryParams at h
  split_ifs at h with h1 h2 h3 h4 h5 h6 h7 h8
  all_goals try simp at h
  exact ⟨h1, h5, h8⟩

/-- C6: raw history parameters whose end instant is not strictly after the
start, or whose latitude or longitude box has both bounds present with max
not strictly greater than min, are rejected by model validation; the raw
pipeline therefore errors and never produces a compiled query (so nothing
reaches the store). -/
theorem history_params_fail_fast (bucket : String) (r : RawHistoryQuery)
    (h : r.end_time ≤ r.start_time ∨
      (∃ lmin lmax, r.latitude_min = some lmin ∧ r.latitude_max = some lmax ∧ lmax ≤ lmin) ∨
      (∃ lmin lmax, r.longitude_min = some lmin ∧ r.longitude_max = some lmax ∧ lmax ≤ lmin)) :
    (∃ e, mkHistoryQueryParams r = Except.error e) ∧
    (∃ e, historyQueryPipeline bucket r = Except.error e) ∧
    ∀ q, historyQueryPipeline bucket r ≠ Except.ok q := by
  have herr : ∃ e, mkHistoryQueryParams r = Except.error e := by
    cases hm : mkHistoryQueryParams r with
    | error e => exact ⟨e, rfl⟩
    | ok p =>
      exfalso
      obtain ⟨hlt, hlat, hlon⟩ := mkHistoryQueryParams_ok_constraints r p hm
      rcases h with h | h | h
      · omega
      · obtain ⟨a, b, ha, hb, hab⟩ := h
        rw [ha, hb] at hlat
        simp [maxGtMinOk] at hlat
        exact absurd hlat (not_lt.mpr hab)
      · obtain ⟨a, b, ha, hb, hab⟩ := h
        rw [ha, hb] at hlon
        simp [maxGtMinOk] at hlon
        exact absurd hlon (not_lt.mpr hab)
  obtain ⟨e, he⟩ := herr
  refine ⟨⟨e, he⟩, ⟨e, ?_⟩, ?_⟩
  · simp [historyQueryPipeline, he]
  · intro q hq
    simp [historyQueryPipeline, he] at hq

/-- C6 witness: start = end = 0 is rejected before any query is compiled. -/
theorem history_params_fail_fast_witness :
    (∃ e, mkHistoryQueryParams
      { start_time := 0, end_time := 0, sensor_type := none, device_id := none,
        latitude_min := none, latitude_max := none, longitude_min := none,
        longitude_max := none, aggregation := none } = Except.error e) ∧
    (∃ e, historyQueryPipeline "iot-sensors"
      { start_time := 0, end_time := 0, sensor_type := none, device_id := none,
        latitude_min := none, latitude_max := none, longitude_min := none,
        longitude_max := none, aggregation := none } = Except.error e) ∧
    ∀ q, historyQueryPipeline "iot-sensors"
      { start_time := 0, end_time := 0, sensor_type := none, device_id := none,
        latitude_min := none, latitude_max := none, longitude_min := none,
        longitude_max := none, aggregation := none } ≠ Except.ok q :=
  history_params_fail_fast "iot-sensors" _ (Or.inl (by norm_num))

/-- C9: the compiled base query always carries the bucket, time-range and
measurement clauses, and each optional filter clause appears in the compiled
clause list exactly when the corresponding parameter was supplied (device
ids being positive after validation). -/
theorem base_query_clause_iff (bucket : String) (p : HistoryQueryParams)
    (hd : ∀ d, p.device_id = some d → 0 < d) :
    (FluxClause.fromBucket bucket ∈ build_base_query bucket p ∧
      FluxClause.range p.start_time p.end_time ∈ build_base_query bucket p ∧
      FluxClause.measurementFilter ∈ build_base_query bucket p) ∧
    (∀ s, FluxClause.sensorTypeFilter s ∈ build_base_query bucket p ↔
      p.sensor_type = some s) ∧
    (∀ d, FluxClause.deviceIdFilter d ∈ build_base_query bucket p ↔
      p.device_id = some d) ∧
    (∀ q, FluxClause.latMinFilter q ∈ build_base_query bucket p ↔
      p.latitude_min = some q) ∧
    (∀ q, FluxClause.latMaxFilter q ∈ build_base_query bucket p ↔
      p.latitude_max = some q) ∧
    (∀ q, FluxClause.lonMinFilter q ∈ build_base_query bucket p ↔
      p.longitude_min = some q) ∧
    (∀ q, FluxClause.lonMaxFilter q ∈ build_base_query bucket p ↔
      p.longitude_max = some q) := by
  obtain ⟨st, et, sty, did, lmin, lmax, lomin, lomax, agg⟩ := p
  rcases did with _ | d
  · refine ⟨⟨?_, ?_, ?_⟩, ?_, ?_, ?_, ?_, ?_, ?_⟩ <;>
      cases sty <;> cases lmin <;> cases lmax <;> cases lomin <;> cases lomax <;>
        simp [build_base_query, sensorTypeClauses, deviceIdClauses, coordClauses, eq_comm]
  · have hd0 : d ≠ 0 := by
      have := hd d rfl
      omega
    refine ⟨⟨?_, ?_, ?_⟩, ?_, ?_, ?_, ?_, ?_, ?_⟩ <;>
      cases sty <;> cases lmin <;> cases lmax <;> cases lomin <;> cases lomax <;>
        simp [build_base_query, sensorTypeClauses, deviceIdClauses, coordClauses, hd0,
          eq_comm]

/-! ### Aggregated history (src/app/services/influxdb.py,
InfluxDBService.query_aggregated_data)

The store's responses to the aggregation query and to the independent count
query enter the function as lists of flat records (`record.values` access is
modelled by the record's optional fields, `record.get_value()` by `value`).
The count dictionary keyed by the raw `(sensor_type, device_id)` pair is a
total function built by assignment (later records overwrite); rows of the
aggregate response that fail `SensorType`/`int` parsing are skipped
individually (`except (ValueError, TypeError): continue`). -/

structure AggFluxRecord where
  sensor_type : Option String
  device_id : Option String
  value : Option ℚ
deriving DecidableEq, Repr

/-- Python `int()` on a float/Decimal value: truncation toward zero. -/
def pyIntTrunc (q : ℚ) : Int := Int.tdiv q.num (q.den : Int)

/-- Digit accumulation for `int(str)`. -/
def parseDigitsAux : List Char → Nat → Option Nat
  | [], acc => some acc
  | c :: cs, acc =>
    if c.isDigit then parseDigitsAux cs (acc * 10 + (c.toNat - '0'.toNat))
    else none

/-- Python `int(str)`: optional sign followed by at least one decimal digit,
`ValueError` (`none`) otherwise. -/
def pyIntOfString (s : String) : Option Int :=
  match s.data with
  | [] => none
  | '-' :: cs =>
    if cs = [] then none else (parseDigitsAux cs 0).map (fun n => -(n : Int))
  | '+' :: cs =>
    if cs = [] then none else (parseDigitsAux cs 0).map (fun n => (n : Int))
  | cs => (parseDigitsAux cs 0).map (fun n => (n : Int))

/-- `count_map[key] = int(record.get_value() or 0)` for one count record. -/
def countMapStep (m : Option String × Option String → Option Int)
    (r : AggFluxRecord) : Option String × Option String → Option Int :=
  fun k =>
    if k = (r.sensor_type, r.device_id) then some (pyIntTrunc (r.value.getD 0))
    else m k

/-- The count dictionary over the count pipeline's records. -/
def buildCountMap (records : List AggFluxRecord) :
    Option String × Option String → Option Int :=
  records.foldl countMapStep (fun _ => none)

structure AggregatedDataPoint where
  sensor_type : SensorType
  device_id : Option Int
  aggregation_type : AggregationType
  value : ℚ
  count : Int
  start_time : Int
  end_time : Int
deriving DecidableEq, Repr

/-- `int(device_id) if device_id else None`: a missing or empty (falsy)
device id gives `None`; an unparsable one raises (outer `none`, the skipped
row). -/
def parseDeviceIdField : Option String → Option (Option Int)
  | none => some none
  | some s =>
    if s = "" then some none
    else (pyIntOfString s).map some

/-- The `AggregatedDataPoint(...)` construction for one aggregate record:
`count_map.get(key, 0)` with the raw-value key, skipping the record when the
sensor-type token or the device id fails to parse. -/
def mkAggregatedPoint (count_map : Option String × Option String → Option Int)
    (p : HistoryQueryParams) (r : AggFluxRecord) : Option AggregatedDataPoint :=
  match parseSensorType r.sensor_type, parseDeviceIdField r.device_id with
  | some st, some did =>
    some
      { sensor_type := st
        device_id := did
        aggregation_type := p.aggregation
        value := r.value.getD 0
        count := (count_map (r.sensor_type, r.device_id)).getD 0
        start_time := p.start_time
        end_time := p.end_time }
  | _, _ => none

/-- `InfluxDBService.query_aggregated_data` after both store responses are
in: build the count map from the count pipeline, then fold the aggregate
records. -/
def query_aggregated_data (aggRecords countRecords : List AggFluxRecord)
    (p : HistoryQueryParams) : List AggregatedDataPoint :=
  aggRecords.filterMap (mkAggregatedPoint (buildCountMap countRecords) p)

theorem buildCountMap_not_found :
    ∀ (records : List AggFluxRecord) (m : Option String × Option String → Option Int)
      (k : Option String × Option String),
      (∀ c ∈ records, (c.sensor_type, c.device_id) ≠ k) → m k = none →
      records.foldl countMapStep m k = none
  | [], m, k, _, hm => hm
  | c :: cs, m, k, h, hm => by
    have hc : (c.sensor_type, c.device_id) ≠ k := h c (by simp)
    have hstep : countMapStep m c k = none := by
      unfold countMapStep
      rw [if_neg (fun hk => hc hk.symm)]
      exact hm
    exact buildCountMap_not_found cs (countMapStep m c) k
      (fun c' hc' => h c' (by simp [hc'])) hstep

/-- C7: each point the aggregated-history operation returns takes its count
from the independently built count map at the raw `(sensor_type, device_id)`
key; every aggregate record that parses is returned (not an error), and when
no count record carries that key the point is returned with count = 0. -/
theorem aggregated_count_join (aggRecords countRecords : List AggFluxRecord)
    (p : HistoryQueryParams) (r : AggFluxRecord) (pt : AggregatedDataPoint)
    (hr : r ∈ aggRecords)
    (hpt : mkAggregatedPoint (buildCountMap countRecords) p r = some pt) :
    pt.count = (buildCountMap countRecords (r.sensor_type, r.device_id)).getD 0 ∧
    pt ∈ query_aggregated_data aggRecords countRecords p ∧
    ((∀ c ∈ countRecords, (c.sensor_type, c.device_id) ≠ (r.sensor_type, r.device_id)) →
      pt.count = 0) := by
  have hcnt : pt.count =
      (buildCountMap countRecords (r.sensor_type, r.device_id)).getD 0 := by
    unfold mkAggregatedPoint at hpt
    cases hst : parseSensorType r.sensor_type with
    | none => rw [hst] at hpt; simp at hpt
    | some st =>
      cases hdid : parseDeviceIdField r.device_id with
      | none => rw [hst, hdid] at hpt; simp at hpt
      | some did =>
        rw [hst, hdid] at hpt
        simp at hpt
        rw [← hpt]
  refine ⟨hcnt, ?_, ?_⟩
  · exact List.mem_filterMap.mpr ⟨r, hr, hpt⟩
  · intro habsent
    have h0 : buildCountMap countRecords (r.sensor_type, r.device_id) = none :=
      buildCountMap_not_found countRecords (fun _ => none) _ habsent rfl
    rw [hcnt, h0]
    rfl

/-- Query parameters used by the C7 witness. -/
def aggWitnessParams : HistoryQueryParams :=
  { start_time := 0
    end_time := 3600
    sensor_type := none
    device_id := none
    latitude_min := none
    latitude_max := none
    longitude_min := none
    longitude_max := none
    aggregation := AggregationType.mean }

/-- Aggregate record for the C7 witness: group ("temperature", "7"). -/
def aggWitnessRecord : AggFluxRecord :=
  { sensor_type := some "temperature", device_id := some "7", value := some 5 }

/-- Count record for the C7 witness: a different group ("humidity", "7"). -/
def countWitnessRecord : AggFluxRecord :=
  { sensor_type := some "humidity", device_id := some "7", value := some 3 }

/-- C7 witness: the temperature group is absent from the count result, yet
it is returned with count 0. -/
theorem aggregated_count_join_witness :
    ∃ pt : AggregatedDataPoint,
      mkAggregatedPoint (buildCountMap [countWitnessRecord]) aggWitnessParams
        aggWitnessRecord = some pt ∧
      pt.count = 0 ∧
      pt ∈ query_aggregated_data [aggWitnessRecord] [countWitnessRecord]
        aggWitnessParams := by
  have hpt : mkAggregatedPoint (buildCountMap [countWitnessRecord]) aggWitnessParams
      aggWitnessRecord =
      some
        { sensor_type := SensorType.temperature
          device_id := some 7
          aggregation_type := AggregationType.mean
          value := 5
          count := 0
          start_time := 0
          end_time := 3600 } := by decide
  have h := aggregated_count_join [aggWitnessRecord] [countWitnessRecord]
    aggWitnessParams aggWitnessRecord _ (by simp) hpt
  exact ⟨_, hpt, h.2.2 (by decide), h.2.1⟩

/-- Query parameter set with every optional filter supplied, for the C9
witness. -/
def fullQueryParams : HistoryQueryParams :=
  { start_time := 0
    end_time := 3600
    sensor_type := some SensorType.temperature
    device_id := some 42
    latitude_min := some 1
    latitude_max := some 2
    longitude_min := some 3
    longitude_max := some 4
    aggregation := AggregationType.mean }

/-- C9 witness: with every filter supplied the corresponding clauses are in
the compiled query, and a clause for an unsupplied value is not. -/
theorem base_query_clause_iff_witness :
    FluxClause.range 0 3600 ∈ build_base_query "iot-sensors" fullQueryParams ∧
    FluxClause.measurementFilter ∈ build_base_query "iot-sensors" fullQueryParams ∧
    FluxClause.sensorTypeFilter SensorType.temperature ∈
      build_base_query "iot-sensors" fullQueryParams ∧
    FluxClause.deviceIdFilter 42 ∈ build_base_query "iot-sensors" fullQueryParams ∧
    FluxClause.latMinFilter 1 ∈ build_base_query "iot-sensors" fullQueryParams ∧
    FluxClause.sensorTypeFilter SensorType.humidity ∉
      build_base_query "iot-sensors" fullQueryParams := by
  have h := base_query_clause_iff "iot-sensors" fullQueryParams
    (by
      intro d hd
      simp [fullQueryParams] at hd
      omega)
  refine ⟨h.1.2.1, h.1.2.2, ?_, ?_, ?_, ?_⟩
  · exact (h.2.1 SensorType.temperature).mpr rfl
  · exact (h.2.2.1 42).mpr rfl
  · exact (h.2.2.2.1 1).mpr rfl
  · intro hmem
    have := (h.2.1 SensorType.humidity).mp hmem
    simp [fullQueryParams] at this

/-! ### Device list (src/app/services/influxdb.py,
InfluxDBService._get_device_info / get_device_list)

The unioned multi-pipeline response for one device enters `_get_device_info`
as a list of flat records.  Each record is dispatched by the source's
`if`/`elif` chain: a record carrying a `sensor_type` column contributes a
parsed sensor type (unparsable tokens are skipped); otherwise a record
tagged `stat == "first"`/`"last"` sets the first/last-seen instant;
otherwise a `_field == "value"` record whose table is a `count` yield adds
to the measurement total (`tableHasCount` stands for the source's
membership test of "count" in the stringified table name); otherwise a
record with both coordinates updates the last location.  `get_device_list`
keeps only devices whose info resolved (`if device_info:`). -/

structure DeviceRecord where
  sensor_type : Option String
  stat : Option String
  fieldName : Option String
  value : Option ℚ
  time : Option Int
  latitude : Option ℚ
  longitude : Option ℚ
  tableHasCount : Bool
deriving DecidableEq, Repr

structure DeviceFold where
  sensor_types : List SensorType
  total_measurements : Int
  first_seen : Option Int
  last_seen : Option Int
  last_location : ℚ × ℚ
deriving DecidableEq, Repr

/-- The accumulator before the record loop: empty types, zero total, no
instants, `{"latitude": 0.0, "longitude": 0.0}`. -/
def initDeviceFold : DeviceFold :=
  { sensor_types := []
    total_measurements := 0
    first_seen := none
    last_seen := none
    last_location := (0, 0) }

/-- One iteration of the record loop of `_get_device_info`. -/
def deviceInfoStep (st : DeviceFold) (r : DeviceRecord) : DeviceFold :=
  if r.sensor_type.isSome then
    match parseSensorType r.sensor_type with
    | some s => { st with sensor_types := st.sensor_types ++ [s] }
    | none => st
  else if r.stat = some "first" then { st with first_seen := r.time }
  else if r.stat = some "last" then { st with last_seen := r.time }
  else if r.fieldName = some "value" ∧ r.tableHasCount then
    { st with total_measurements :=
        st.total_measurements + pyIntTrunc (r.value.getD 0) }
  else if r.latitude.isSome ∧ r.longitude.isSome then
    { st with last_location := (r.latitude.getD 0, r.longitude.getD 0) }
  else st

structure DeviceInfo where
  device_id : Int
  sensor_types : List SensorType
  first_seen : Int
  last_seen : Int
  total_measurements : Int
  last_location : ℚ × ℚ
deriving DecidableEq, Repr

/-- `_get_device_info` after the store response is in: fold the records,
then `return None` when no sensor type, first-seen or last-seen resolved,
else build the `DeviceInfo` (sensor types deduplicated, as
`list(set(...))`). -/
def get_device_info (device_id : Int) (records : List DeviceRecord) : Option DeviceInfo :=
  let st := records.foldl deviceInfoStep initDeviceFold
  if st.sensor_types = [] then none
  else
    match st.first_seen, st.last_seen with
    | some f, some l =>
      some
        { device_id := device_id
          sensor_types := st.sensor_types.dedup
          first_seen := f
          last_seen := l
          total_measurements := st.total_measurements
          last_location := st.last_location }
    | _, _ => none

/-- `get_device_list` after the device-id scan: fetch each device's info and
keep the resolved ones. -/
def get_device_list (device_ids : List Int)
    (recordsFor : Int → List DeviceRecord) : List DeviceInfo :=
  device_ids.filterMap (fun d => get_device_info d (recordsFor d))

theorem get_device_info_device_id (d : Int) (records : List DeviceRecord)
    (info : DeviceInfo) (h : get_device_info d records = some info) :
    info.device_id = d := by
  simp only [get_device_info] at h
  split_ifs at h with h1
  revert h
  cases hf : (records.foldl deviceInfoStep initDeviceFold).first_seen <;>
    cases hl : (records.foldl deviceInfoStep initDeviceFold).last_seen
  all_goals intro h
  all_goals simp at h
  all_goals rw [← h]

/-- C8: a device whose folded sub-results leave the sensor-type list empty
or either instant unresolved is reported as `None` by `_get_device_info` and
appears nowhere in the device list (which is still produced, not an error);
a device whose info resolves is in the list. -/
theorem device_missing_facets_omitted (device_ids : List Int)
    (recordsFor : Int → List DeviceRecord) (d : Int) (hd : d ∈ device_ids) :
    (((recordsFor d).foldl deviceInfoStep initDeviceFold).sensor_types = [] ∨
      ((recordsFor d).foldl deviceInfoStep initDeviceFold).first_seen = none ∨
      ((recordsFor d).foldl deviceInfoStep initDeviceFold).last_seen = none →
      get_device_info d (recordsFor d) = none ∧
      ∀ info ∈ get_device_list device_ids recordsFor, info.device_id ≠ d) ∧
    (∀ info, get_device_info d (recordsFor d) = some info →
      info ∈ get_device_list device_ids recordsFor) ∧
    (((recordsFor d).foldl deviceInfoStep initDeviceFold).sensor_types ≠ [] ∧
      (((recordsFor d).foldl deviceInfoStep initDeviceFold).first_seen).isSome ∧
      (((recordsFor d).foldl deviceInfoStep initDeviceFold).last_seen).isSome →
      (get_device_info d (recordsFor d)).isSome) := by
  refine ⟨?_, ?_, ?_⟩
  · intro hmiss
    have hnone : get_device_info d (recordsFor d) = none := by
      simp only [get_device_info]
      rcases hmiss with h1 | h2 | h3
      · rw [if_pos h1]
      · split_ifs with hne
        · rfl
        · rw [h2]
      · split_ifs with hne
        · rfl
        · rw [h3]
          cases ((recordsFor d).foldl deviceInfoStep initDeviceFold).first_seen <;> rfl
    refine ⟨hnone, ?_⟩
    intro info hinfo hid
    obtain ⟨d', hd', hsome⟩ := List.mem_filterMap.mp hinfo
    have : info.device_id = d' := get_device_info_device_id d' (recordsFor d') info hsome
    rw [hid] at this
    rw [← this] at hsome
    rw [hnone] at hsome
    exact Option.noConfusion hsome
  · intro info hinfo
    exact List.mem_filterMap.mpr ⟨d, hd, hinfo⟩
  · intro ⟨h1, h2, h3⟩
    simp only [get_device_info]
    rw [if_neg h1]
    obtain ⟨f, hf⟩ := Option.isSome_iff_exists.mp h2
    obtain ⟨l, hl⟩ := Option.isSome_iff_exists.mp h3
    rw [hf, hl]
    rfl

/-- Records of the C8 witness device 1: one sensor-type row, a first row
and a last row — all facets resolve. -/
def deviceRecordsComplete : List DeviceRecord :=
  [{ sensor_type := some "temperature", stat := none, fieldName := none, value := none,
     time := none, latitude := none, longitude := none, tableHasCount := false },
   { sensor_type := none, stat := some "first", fieldName := none, value := none,
     time := some 100, latitude := none, longitude := none, tableHasCount := false },
   { sensor_type := none, stat := some "last", fieldName := none, value := none,
     time := some 200, latitude := none, longitude := none, tableHasCount := false }]

/-- Records of the C8 witness device 2: sensor type and first seen resolve
but no `last` row arrives (3 of 4 facets). -/
def deviceRecordsMissingLast : List DeviceRecord :=
  [{ sensor_type := some "temperature", stat := none, fieldName := none, value := none,
     time := none, latitude := none, longitude := none, tableHasCount := false },
   { sensor_type := none, stat := some "first", fieldName := none, value := none,
     time := some 100, latitude := none, longitude := none, tableHasCount := false }]

/-- Record source for the C8 witness: device 1 complete, device 2 missing
its last-seen facet. -/
def deviceRecordsFor (d : Int) : List DeviceRecord :=
  if d = 1 then deviceRecordsComplete else deviceRecordsMissingLast

/-- C8 witness: device 2 (missing last_seen) is dropped from the list while
device 1 (all facets) is returned. -/
theorem device_missing_facets_omitted_witness :
    (get_device_info 2 (deviceRecordsFor 2) = none ∧
      ∀ info ∈ get_device_list [1, 2] deviceRecordsFor, info.device_id ≠ 2) ∧
    (get_device_info 1 (deviceRecordsFor 1)).isSome := by
  have h2 := device_missing_facets_omitted [1, 2] deviceRecordsFor 2 (by simp)
  have h1 := device_missing_facets_omitted [1, 2] deviceRecordsFor 1 (by simp)
  exact ⟨h2.1 (by decide), h1.2.2 (by decide)⟩

end SensorGate
